import Mathlib

/-!
Shallow embedding of the fastAPI_app chat backend core:
the rate-limit / quota engine (src/services/rate_limit.py), the
chat orchestration protocol (src/services/chat_service.py), the
LLM formatting helpers (src/services/llm_service.py), the data
model (src/database/models.py), the typed exception classes
(src/exceptions.py) and the chat router's exception dispatch
(src/routes/chats/router.py).

Database rows are modelled as structures mirroring the SQLAlchemy
models; the async session is modelled as a pair of database states
(committed, pending): `add`/`flush` mutate only the pending state,
`commit` copies pending over committed, `rollback` restores pending
from committed.  Timestamps are naturals (seconds); `datetime.utcnow()`
becomes an explicit `now` parameter.  The external LangChain/OpenAI
backend is an opaque parameter record: a title generator (total — the
Python wrapper catches every error and falls back), a synchronous
generator that may fail with an error message, and a streaming
generator producing a list of yielded fragments followed by an
optional mid-stream failure.
-/

namespace App

/-- Sender kinds of `schemas.SenderType` / the `messages.sender_type`
check constraint. -/
inductive SenderType
  | user
  | assistant
  | system
deriving DecidableEq, Repr

/-- Row of `users` (src/database/models.py).  Note: the model has no
administrative / bypass flag of any kind. -/
structure User where
  id : Nat
  email : String
  username : String
  email_verified : Bool
deriving DecidableEq, Repr

/-- Row of `subscription_plans` (src/database/models.py). -/
structure SubscriptionPlan where
  id : Nat
  name : String
  requests_per_minute : Nat
  requests_per_day : Nat
  price : Int
deriving DecidableEq, Repr

/-- Row of `user_subscriptions` (src/database/models.py). -/
structure UserSubscription where
  id : Nat
  user_id : Nat
  plan_id : Nat
  start_date : Nat
  end_date : Option Nat
  active : Bool
  created_at : Nat
deriving DecidableEq, Repr

/-- Row of `request_logs` (src/database/models.py). -/
structure RequestLog where
  id : Nat
  user_id : Nat
  requested_at : Nat
deriving DecidableEq, Repr

/-- Row of `conversations` (src/database/models.py). -/
structure Conversation where
  id : Nat
  user_id : Nat
  title : String
  created_at : Nat
deriving DecidableEq, Repr

/-- Row of `messages` (src/database/models.py).  Rows are append-only;
`created_at` is server-assigned, monotone in append order. -/
structure Message where
  id : Nat
  conversation_id : Nat
  sender_type : SenderType
  content : String
  created_at : Nat
deriving DecidableEq, Repr

/-- One database state: the tables used by the core, in insertion
order, plus the autoincrement counter shared for brevity. -/
structure DB where
  plans : List SubscriptionPlan
  subscriptions : List UserSubscription
  request_logs : List RequestLog
  conversations : List Conversation
  messages : List Message
  next_id : Nat
deriving DecidableEq, Repr

/-- The async SQLAlchemy session: queries and `add`/`flush` act on
`pending`; `commit` publishes, `rollback` discards. -/
structure Session where
  committed : DB
  pending : DB
deriving DecidableEq, Repr

def Session.commit (s : Session) : Session := ⟨s.pending, s.pending⟩

def Session.rollback (s : Session) : Session := ⟨s.committed, s.committed⟩

/-- Exception value escaping a service call.  `httpException` is
`fastapi.HTTPException`; the three constructors after it are the typed
classes of src/exceptions.py; `valueError` is Python's `ValueError`;
`genericException` a bare `Exception`; `multipleResultsFound` is
SQLAlchemy's error from `scalar_one_or_none` on a multi-row result. -/
inductive ServiceError
  | httpException (status_code : Nat) (detail : String)
  | dailyLimitExceeded (requests_per_day : Nat)
  | minuteLimitExceeded (requests_per_minute : Nat)
  | noActiveSubscription (message : String)
  | valueError (message : String)
  | genericException (message : String)
  | multipleResultsFound
deriving DecidableEq, Repr

/-- `scalar_one_or_none()` over the rows a query returned. -/
def scalarOneOrNone {α : Type} : List α → Except ServiceError (Option α)
  | [] => .ok none
  | [a] => .ok (some a)
  | _ => .error .multipleResultsFound

/-! ## RateLimitService (src/services/rate_limit.py) -/

/-- The subscription query of `check_rate_limit` (lines 14-26): join
`UserSubscription` to `SubscriptionPlan` on `plan_id`, filter by
`user_id`, `active == True`, `start_date <= utcnow()` and
(`end_date IS NULL` or `end_date > utcnow()`), take `.first()`.
The query has no ORDER BY, so `.first()` is the first row in table
order. -/
def activeSubscriptionQuery (db : DB) (uid : Nat) (now : Nat) :
    Option (UserSubscription × SubscriptionPlan) :=
  (db.subscriptions.filterMap (fun sub =>
    (db.plans.find? (fun p => p.id == sub.plan_id)).bind (fun p =>
      if sub.user_id == uid && sub.active &&
          decide (sub.start_date ≤ now) &&
          (match sub.end_date with
           | none => true
           | some e => decide (now < e)) then
        some (sub, p)
      else
        none))).head?

/-- `datetime.utcnow().replace(hour=0, minute=0, second=0, microsecond=0)`:
the start of the current UTC calendar day. -/
def todayStart (now : Nat) : Nat := 86400 * (now / 86400)

/-- Count of the user's `RequestLog` rows with
`requested_at >= today_start` (lines 36-45). -/
def dailyCount (db : DB) (uid : Nat) (now : Nat) : Nat :=
  (db.request_logs.filter (fun r =>
    r.user_id == uid && decide (todayStart now ≤ r.requested_at))).length

/-- Count of the user's `RequestLog` rows with
`requested_at >= utcnow() - timedelta(minutes=1)` (lines 54-63). -/
def minuteCount (db : DB) (uid : Nat) (now : Nat) : Nat :=
  (db.request_logs.filter (fun r =>
    r.user_id == uid && decide (now - 60 ≤ r.requested_at))).length

/-- Detail string of the daily-limit `HTTPException` (line 50). -/
def dailyLimitDetail (n : Nat) : String :=
  "Daily limit exceeded. Plan allows " ++ toString n ++ " requests per day."

/-- Detail string of the per-minute `HTTPException` (line 68). -/
def minuteLimitDetail (n : Nat) : String :=
  "Rate limit exceeded. Plan allows " ++ toString n ++ " requests per minute."

/-- Fixed defaults of the auto-created "Free" plan
(src/services/rate_limit.py lines 91-96). -/
def freePlanDefaults (id : Nat) : SubscriptionPlan :=
  { id := id
    name := "Free"
    requests_per_minute := 5
    requests_per_day := 100
    price := 0 }

/-- `RateLimitService._ensure_free_plan` (lines 80-107): look up the
plan named "Free" with `scalar_one_or_none`, create it with the fixed
defaults if missing (add + flush), then add an active subscription for
the user (no end date) and commit. -/
def ensure_free_plan (s : Session) (user : User) (now : Nat) :
    Except ServiceError Session :=
  match scalarOneOrNone (s.pending.plans.filter (fun p => p.name == "Free")) with
  | .error e => .error e
  | .ok planOpt =>
    let (plan, db1) :=
      match planOpt with
      | some p => (p, s.pending)
      | none =>
        let p := freePlanDefaults s.pending.next_id
        (p, { s.pending with
                plans := s.pending.plans ++ [p]
                next_id := s.pending.next_id + 1 })
    let sub : UserSubscription :=
      { id := db1.next_id
        user_id := user.id
        plan_id := plan.id
        start_date := now
        end_date := none
        active := true
        created_at := now }
    let db2 := { db1 with
                   subscriptions := db1.subscriptions ++ [sub]
                   next_id := db1.next_id + 1 }
    .ok (Session.commit ⟨s.committed, db2⟩)

/-- `RateLimitService.check_rate_limit` (lines 10-71).  With no active
subscription it provisions the Free plan and returns `False`; a hit on
the daily or the per-minute limit raises `HTTPException(429, ...)`
with the limit embedded in the detail string; otherwise it returns
`True`. -/
def check_rate_limit (s : Session) (user : User) (now : Nat) :
    Except ServiceError (Bool × Session) :=
  match activeSubscriptionQuery s.pending user.id now with
  | none =>
    match ensure_free_plan s user now with
    | .error e => .error e
    | .ok s2 => .ok (false, s2)
  | some (_, plan) =>
    if plan.requests_per_day ≤ dailyCount s.pending user.id now then
      .error (.httpException 429 (dailyLimitDetail plan.requests_per_day))
    else if plan.requests_per_minute ≤ minuteCount s.pending user.id now then
      .error (.httpException 429 (minuteLimitDetail plan.requests_per_minute))
    else
      .ok (true, s)

/-- `RateLimitService.log_request` (lines 73-78): insert one
`RequestLog` row timestamped now, then commit. -/
def log_request (s : Session) (user : User) (now : Nat) : Session :=
  let r : RequestLog :=
    { id := s.pending.next_id, user_id := user.id, requested_at := now }
  Session.commit
    ⟨s.committed,
     { s.pending with
         request_logs := s.pending.request_logs ++ [r]
         next_id := s.pending.next_id + 1 }⟩

/-! ## Chat request/response shapes (src/schemas.py) -/

/-- `schemas.LLMRequest`: `message: str`,
`conversation_id: Optional[int] = None`. -/
structure LLMRequest where
  message : String
  conversation_id : Option Nat
deriving DecidableEq, Repr

/-- `schemas.LLMResponse`. -/
structure LLMResponse where
  response : String
  conversation_id : Nat
  message_id : Nat
deriving DecidableEq, Repr

/-- One `role`/`content` entry of the OpenAI-format message list built
by `LLMService.format_conversation_for_llm`. -/
structure FormattedMessage where
  role : String
  content : String
deriving DecidableEq, Repr

/-- The opaque external LangChain/OpenAI backend as consumed by
`ChatService` (src/services/llm_service.py).  `genTitle` models
`generate_conversation_title`, which is total (every failure falls
back to deterministic truncation of the user message).  `gen` models
`generate_response`: either a response text or a raised error message.
`genStream` models `generate_response_stream`: the fragments yielded
in order, then `none` for normal completion or `some msg` for an
exception raised mid-stream after those fragments. -/
structure LLMBackend where
  genTitle : String → String
  gen : List FormattedMessage → Except String String
  genStream : List FormattedMessage → List String × Option String

/-! ## LLMService.format_conversation_for_llm (src/services/llm_service.py, lines 63-78) -/

/-- `format_conversation_for_llm`: map each stored message to a
role/content pair; `role = "user" if sender == user else "assistant"`,
then overridden to `"system"` for system senders. -/
def format_conversation_for_llm (messages : List Message) :
    List FormattedMessage :=
  messages.map (fun m =>
    let role := if m.sender_type = SenderType.user then "user" else "assistant"
    let role := if m.sender_type = SenderType.system then "system" else role
    { role := role, content := m.content })

/-! ## ChatService (src/services/chat_service.py) -/

/-- The fixed operating instructions of `ChatService.system_message`
(line 20). -/
def system_message_text : String :=
  "You are a helpful assistant. Answer questions based on the conversation history and provide accurate information."

/-- `ChatService._add_system_message_to_formatted_messages`
(lines 22-38): if the first entry already has role `"system"` it is
replaced by the fixed instructions, otherwise the fixed instructions
are inserted at position 0. -/
def add_system_message_to_formatted_messages
    (formatted : List FormattedMessage) : List FormattedMessage :=
  let sysEntry : FormattedMessage :=
    { role := "system", content := system_message_text }
  match formatted with
  | [] => [sysEntry]
  | first :: rest =>
    if first.role == "system" then
      sysEntry :: rest
    else
      sysEntry :: first :: rest

/-- Python truthiness of `if request.conversation_id:` (line 148):
`None` and `0` are both falsy. -/
def truthyConversationId : Option Nat → Bool
  | none => false
  | some cid => cid != 0

/-- `ChatService._get_or_create_conversation` (lines 141-174).  With a
truthy `conversation_id` the conversation is fetched scoped to the
requesting user (filtered by both `Conversation.id` and
`Conversation.user_id`), with its messages eagerly loaded
(`selectinload`, no ORDER BY: table order); `None` raises
`ValueError("Conversation not found")`.  Otherwise a new conversation
is created (add + flush), titled by the title generator; a freshly
constructed ORM object has an empty loaded `messages` collection.
Returns the conversation together with the loaded message collection
(the contents of `conversation.messages` at resolution time). -/
def get_or_create_conversation (env : LLMBackend) (s : Session)
    (req : LLMRequest) (current_user : User) (now : Nat) :
    Except ServiceError (Conversation × List Message × Session) :=
  if truthyConversationId req.conversation_id then
    match scalarOneOrNone (s.pending.conversations.filter (fun c =>
        c.id == req.conversation_id.getD 0 && c.user_id == current_user.id)) with
    | .error e => .error e
    | .ok none => .error (.valueError "Conversation not found")
    | .ok (some conversation) =>
      let loaded := s.pending.messages.filter (fun m =>
        m.conversation_id == conversation.id)
      .ok (conversation, loaded, s)
  else
    let title := env.genTitle req.message
    let conversation : Conversation :=
      { id := s.pending.next_id
        user_id := current_user.id
        title := title
        created_at := now }
    let db1 := { s.pending with
                   conversations := s.pending.conversations ++ [conversation]
                   next_id := s.pending.next_id + 1 }
    .ok (conversation, [], ⟨s.committed, db1⟩)

/-- `ChatService._add_user_message` (lines 176-190): add one `user`
message row and flush (the id is assigned, nothing is committed). -/
def add_user_message (s : Session) (content : String)
    (conversation : Conversation) (now : Nat) : Message × Session :=
  let m : Message :=
    { id := s.pending.next_id
      conversation_id := conversation.id
      sender_type := .user
      content := content
      created_at := now }
  (m, ⟨s.committed,
       { s.pending with
           messages := s.pending.messages ++ [m]
           next_id := s.pending.next_id + 1 }⟩)

/-- `ChatService._add_assistant_message` (lines 192-205): add one
`assistant` message row (not flushed by itself; the id is
server-assigned no later than the following commit). -/
def add_assistant_message (s : Session) (content : String)
    (conversation : Conversation) (now : Nat) : Message × Session :=
  let m : Message :=
    { id := s.pending.next_id
      conversation_id := conversation.id
      sender_type := .assistant
      content := content
      created_at := now }
  (m, ⟨s.committed,
       { s.pending with
           messages := s.pending.messages ++ [m]
           next_id := s.pending.next_id + 1 }⟩)

/-- `ChatService._get_conversation_messages` (lines 207-223).
`hasattr(conversation, 'messages')` is true for every SQLAlchemy model
instance (the relationship attribute always exists), so the first
branch is always taken: the loaded relationship contents captured at
conversation-resolution time, plus the just-appended user message. -/
def get_conversation_messages (loaded : List Message)
    (user_message : Message) : List Message :=
  loaded ++ [user_message]

/-- `ChatService.process_chat_request` (lines 40-87), the
non-streaming orchestration.  Note line 49: the boolean returned by
`check_rate_limit` is discarded — only a raised exception stops the
request.  Everything up to and including context assembly runs before
the `try`; a failure of the generation call rolls the session back and
re-raises a generic wrapped exception.  Returns the outcome together
with the session state the request leaves behind. -/
def process_chat_request (env : LLMBackend) (s : Session)
    (req : LLMRequest) (current_user : User) (now : Nat) :
    Except ServiceError LLMResponse × Session :=
  match check_rate_limit s current_user now with
  | .error e => (.error e, s)
  | .ok (_allowed, s1) =>
    match get_or_create_conversation env s1 req current_user now with
    | .error e => (.error e, s1)
    | .ok (conversation, loaded, s2) =>
      let user_message := (add_user_message s2 req.message conversation now).1
      let s3 := (add_user_message s2 req.message conversation now).2
      let messages := get_conversation_messages loaded user_message
      let formatted_messages := format_conversation_for_llm messages
      let formatted_with_system :=
        add_system_message_to_formatted_messages formatted_messages
      match env.gen formatted_with_system with
      | .error e =>
        (.error (.genericException ("Error generating response: " ++ e)),
         s3.rollback)
      | .ok llm_response =>
        let assistant_message :=
          (add_assistant_message s3 llm_response conversation now).1
        let s4 := (add_assistant_message s3 llm_response conversation now).2
        let s5 := log_request s4 current_user now
        let s6 := s5.commit
        (.ok { response := llm_response
               conversation_id := conversation.id
               message_id := assistant_message.id }, s6)

/-- One server-sent event of the streaming protocol
(src/services/chat_service.py lines 117, 123, 135, 139). -/
inductive StreamEvent
  | metadata (conversation_id : Nat) (message_id : Nat)
  | chunk (content : String)
  | complete (message_id : Nat)
  | error (message : String)
deriving DecidableEq, Repr

/-- Outcome of one run of the streaming generator: the events it
yielded in order, the exception escaping it (if any — exceptions
raised before the `try` block propagate out of the generator without
any event being emitted), and the session it leaves behind. -/
structure StreamRun where
  events : List StreamEvent
  raised : Option ServiceError
  final : Session
deriving DecidableEq, Repr

/-- `ChatService.process_chat_request_stream` (lines 89-139).  Rate
limiting, conversation resolution, the user-message append and context
assembly run before the `try`: an exception there escapes the async
generator with no event emitted.  Inside the `try` the generator
yields a metadata event, one chunk event per fragment while
accumulating `full_response`, then on success appends the assistant
message, logs usage, commits and yields a complete event; an exception
mid-stream rolls back and yields a single error event. -/
def process_chat_request_stream (env : LLMBackend) (s : Session)
    (req : LLMRequest) (current_user : User) (now : Nat) : StreamRun :=
  match check_rate_limit s current_user now with
  | .error e => ⟨[], some e, s⟩
  | .ok (_allowed, s1) =>
    match get_or_create_conversation env s1 req current_user now with
    | .error e => ⟨[], some e, s1⟩
    | .ok (conversation, loaded, s2) =>
      let user_message := (add_user_message s2 req.message conversation now).1
      let s3 := (add_user_message s2 req.message conversation now).2
      let messages := get_conversation_messages loaded user_message
      let formatted_with_system :=
        add_system_message_to_formatted_messages
          (format_conversation_for_llm messages)
      let meta := StreamEvent.metadata conversation.id user_message.id
      let chunks := (env.genStream formatted_with_system).1
      let chunkEvents := chunks.map StreamEvent.chunk
      match (env.genStream formatted_with_system).2 with
      | some errMsg =>
        ⟨meta :: chunkEvents ++ [.error errMsg], none, s3.rollback⟩
      | none =>
        let full_response := chunks.foldl (fun acc c => acc ++ c) ""
        let assistant_message :=
          (add_assistant_message s3 full_response conversation now).1
        let s4 := (add_assistant_message s3 full_response conversation now).2
        let s5 := log_request s4 current_user now
        let s6 := s5.commit
        ⟨meta :: chunkEvents ++ [.complete assistant_message.id], none, s6⟩

/-! ## Chat router exception dispatch (src/routes/chats/router.py, lines 23-56) -/

/-- Python's `pat in msg` substring containment on strings. -/
def textContains (pat msg : String) : Bool :=
  msg.data.tails.any (fun t => pat.data.isPrefixOf t)

/-- Whether the given error is one of the three typed exception
classes of src/exceptions.py that the chat router maps to 429/402. -/
def isTypedRateLimitError : ServiceError → Bool
  | .dailyLimitExceeded _ => true
  | .minuteLimitExceeded _ => true
  | .noActiveSubscription _ => true
  | _ => false

/-- The status code `chat_with_llm` answers with when
`process_chat_request` raises: the `except` clauses in source order.
`DailyLimitExceededException` and `MinuteLimitExceededException` map
to 429, `NoActiveSubscriptionException` to 402, a `ValueError` whose
text contains "Conversation not found" to 404 and any other
`ValueError` to 400; everything else — including an `HTTPException`
raised by the rate limiter, which is an `Exception` and is not matched
earlier — falls to the final handler and is re-raised as 500. -/
def chat_router_status : ServiceError → Nat
  | .dailyLimitExceeded _ => 429
  | .minuteLimitExceeded _ => 429
  | .noActiveSubscription _ => 402
  | .valueError msg =>
    if textContains "Conversation not found" msg then 404 else 400
  | _ => 500

/-! ## Concrete fixtures used by witnesses and counterexamples -/

/-- A registered user with every flag the model has set. -/
def alice : User :=
  { id := 1, email := "alice@example.com", username := "alice",
    email_verified := true }

/-- An empty store: no plans, subscriptions, logs, conversations or
messages. -/
def emptyDB : DB :=
  { plans := [], subscriptions := [], request_logs := [],
    conversations := [], messages := [], next_id := 1 }

/-- A clean per-request session over a given store (nothing pending). -/
def cleanSession (db : DB) : Session := ⟨db, db⟩

/-- A store in which `alice` holds an active subscription to a plan
allowing 5 requests/minute and 100 requests/day. -/
def subscribedDB : DB :=
  { plans := [freePlanDefaults 1]
    subscriptions := [{ id := 2, user_id := 1, plan_id := 1,
                        start_date := 0, end_date := none,
                        active := true, created_at := 0 }]
    request_logs := []
    conversations := []
    messages := []
    next_id := 3 }

/-- A backend whose generation calls succeed: title "Test Title",
synchronous response "Hi there", stream fragments "Hel" then "lo". -/
def okBackend : LLMBackend :=
  { genTitle := fun _ => "Test Title"
    gen := fun _ => .ok "Hi there"
    genStream := fun _ => (["Hel", "lo"], none) }

/-- A backend whose generation calls raise after yielding "Hel". -/
def failingBackend : LLMBackend :=
  { genTitle := fun _ => "Test Title"
    gen := fun _ => .error "LLM API error: boom"
    genStream := fun _ => (["Hel"], some "LLM API error: boom") }

/-- A fresh chat request with no conversation id. -/
def newChatRequest : LLMRequest :=
  { message := "Hello", conversation_id := none }

/-! ## Claim C3 -/

/-- Claim C3: with a resolved active plan, the admission check
evaluates the daily limit first and the minute limit second: it raises
the 429 "Daily limit exceeded" error carrying `plan.requests_per_day`
exactly when the count of the user's RequestLog rows timestamped at or
after the start of the current UTC day reaches
`plan.requests_per_day`; otherwise it raises the 429 "Rate limit
exceeded" error carrying `plan.requests_per_minute` exactly when the
count of rows timestamped within the last 60 seconds reaches
`plan.requests_per_minute`; otherwise it grants admission. -/
theorem c3_daily_then_minute_limits (s : Session) (u : User) (now : Nat)
    (sub : UserSubscription) (plan : SubscriptionPlan)
    (hsub : activeSubscriptionQuery s.pending u.id now = some (sub, plan)) :
    (plan.requests_per_day ≤ dailyCount s.pending u.id now →
      check_rate_limit s u now =
        .error (.httpException 429 (dailyLimitDetail plan.requests_per_day))) ∧
    (dailyCount s.pending u.id now < plan.requests_per_day →
      plan.requests_per_minute ≤ minuteCount s.pending u.id now →
      check_rate_limit s u now =
        .error (.httpException 429 (minuteLimitDetail plan.requests_per_minute))) ∧
    (dailyCount s.pending u.id now < plan.requests_per_day →
      minuteCount s.pending u.id now < plan.requests_per_minute →
      check_rate_limit s u now = .ok (true, s)) := by
  refine ⟨fun h1 => ?_, fun h1 h2 => ?_, fun h1 h2 => ?_⟩ <;>
    simp only [check_rate_limit, hsub]
  · rw [if_pos h1]
  · rw [if_neg (Nat.not_le.mpr h1), if_pos h2]
  · rw [if_neg (Nat.not_le.mpr h1), if_neg (Nat.not_le.mpr h2)]

/-- A store for the C3 witness: `alice` subscribed to a plan with
daily limit 1, and one request already logged today. -/
def c3DB : DB :=
  { plans := [{ id := 1, name := "Tiny", requests_per_minute := 5,
                requests_per_day := 1, price := 0 }]
    subscriptions := [{ id := 2, user_id := 1, plan_id := 1,
                        start_date := 0, end_date := none,
                        active := true, created_at := 0 }]
    request_logs := [{ id := 3, user_id := 1, requested_at := 99000 }]
    conversations := []
    messages := []
    next_id := 4 }

/-- Witness for C3: in `c3DB` at time 100000 the daily count is 1 and
the plan allows 1/day, so the check raises the daily 429. -/
theorem c3_daily_then_minute_limits_witness :
    activeSubscriptionQuery (cleanSession c3DB).pending alice.id 100000 =
      some ({ id := 2, user_id := 1, plan_id := 1, start_date := 0,
              end_date := none, active := true, created_at := 0 },
            { id := 1, name := "Tiny", requests_per_minute := 5,
              requests_per_day := 1, price := 0 }) ∧
    1 ≤ dailyCount (cleanSession c3DB).pending alice.id 100000 ∧
    check_rate_limit (cleanSession c3DB) alice 100000 =
      .error (.httpException 429 (dailyLimitDetail 1)) :=
  ⟨rfl, by decide,
   (c3_daily_then_minute_limits (cleanSession c3DB) alice 100000 _ _ rfl).1
     (by decide)⟩

/-! ## Error-shape lemmas shared by several claims -/

theorem scalarOneOrNone_error_eq {α : Type} {l : List α} {e : ServiceError}
    (h : scalarOneOrNone l = .error e) : e = .multipleResultsFound := by
  unfold scalarOneOrNone at h
  split at h <;> simp_all

theorem ensure_free_plan_error_eq {s : Session} {u : User} {now : Nat}
    {e : ServiceError} (h : ensure_free_plan s u now = .error e) :
    e = .multipleResultsFound := by
  unfold ensure_free_plan at h
  split at h
  next e2 hs =>
    injection h with h2
    exact h2 ▸ scalarOneOrNone_error_eq hs
  next planOpt hs =>
    cases planOpt <;> simp_all

theorem check_rate_limit_error_shape {s : Session} {u : User} {now : Nat}
    {e : ServiceError} (h : check_rate_limit s u now = .error e) :
    e = .multipleResultsFound ∨ ∃ d, e = .httpException 429 d := by
  unfold check_rate_limit at h
  split at h
  · split at h
    next e2 hens =>
      injection h with h2
      exact .inl (h2 ▸ ensure_free_plan_error_eq hens)
    next s2 hens => simp_all
  · split at h
    · injection h with h2
      exact .inr ⟨_, h2.symm⟩
    · split at h
      · injection h with h2
        exact .inr ⟨_, h2.symm⟩
      · simp_all

theorem get_or_create_conversation_error_shape {env : LLMBackend}
    {s : Session} {req : LLMRequest} {u : User} {now : Nat}
    {e : ServiceError}
    (h : get_or_create_conversation env s req u now = .error e) :
    e = .multipleResultsFound ∨ e = .valueError "Conversation not found" := by
  unfold get_or_create_conversation at h
  split at h
  · split at h
    next e2 hs =>
      injection h with h2
      exact .inl (h2 ▸ scalarOneOrNone_error_eq hs)
    next hs =>
      injection h with h2
      exact .inr h2.symm
    next conv hs => simp_all
  · simp_all

theorem process_chat_request_error_shape {env : LLMBackend} {s : Session}
    {req : LLMRequest} {u : User} {now : Nat} {e : ServiceError}
    (h : (process_chat_request env s req u now).1 = .error e) :
    (∃ d, e = .httpException 429 d) ∨ e = .multipleResultsFound ∨
      e = .valueError "Conversation not found" ∨
      ∃ m, e = .genericException m := by
  unfold process_chat_request at h
  split at h
  next e2 hc =>
    injection h with h2
    rcases check_rate_limit_error_shape (h2 ▸ hc) with h3 | h3
    · exact .inr (.inl h3)
    · exact .inl h3
  next b s1 hc =>
    split at h
    next e2 hg =>
      injection h with h2
      rcases get_or_create_conversation_error_shape (h2 ▸ hg) with h3 | h3
      · exact .inr (.inl h3)
      · exact .inr (.inr (.inl h3))
    next conv loaded s2 hg =>
      dsimp only at h
      split at h
      next em hgen =>
        injection h with h2
        exact .inr (.inr (.inr ⟨_, h2.symm⟩))
      next resp hgen => simp_all

/-! ## Claim C10 -/

/-- Claim C10: the typed exception classes
`DailyLimitExceededException`, `MinuteLimitExceededException` and
`NoActiveSubscriptionException` are never raised: every error escaping
`check_rate_limit` is untyped (the daily/minute denials are generic
`HTTPException(429, detail)` values with the limit only inside the
message string), the no-subscription case returns `False` instead of
raising, and every error escaping `process_chat_request` is untyped,
so the chat router's handlers mapping the three typed exceptions to
429/402 are unreachable (no reachable error maps to 402, nor to 429
through `chat_router_status`). -/
theorem c10_typed_exception_handlers_unreachable (env : LLMBackend)
    (s : Session) (req : LLMRequest) (u : User) (now : Nat) :
    (∀ e, check_rate_limit s u now = .error e →
      isTypedRateLimitError e = false) ∧
    (∀ b s2, check_rate_limit s u now = .ok (b, s2) →
      (b = false ↔ activeSubscriptionQuery s.pending u.id now = none)) ∧
    (∀ e, (process_chat_request env s req u now).1 = .error e →
      isTypedRateLimitError e = false ∧
      chat_router_status e ≠ 402 ∧ chat_router_status e ≠ 429) := by
  refine ⟨fun e h => ?_, fun b s2 h => ?_, fun e h => ?_⟩
  · rcases check_rate_limit_error_shape h with rfl | ⟨d, rfl⟩ <;> rfl
  · unfold check_rate_limit at h
    split at h
    next hq =>
      split at h
      · simp_all
      · injection h with h2
        injection h2 with h3 h4
        simp [← h3, hq]
    next sub plan hq =>
      split at h
      · simp_all
      · split at h
        · simp_all
        · injection h with h2
          injection h2 with h3 h4
          simp [← h3, hq]
  · rcases process_chat_request_error_shape h with ⟨d, rfl⟩ | rfl | rfl | ⟨m, rfl⟩
    · have h500 : chat_router_status (.httpException 429 d) = 500 := rfl
      exact ⟨rfl, by rw [h500]; decide, by rw [h500]; decide⟩
    · exact ⟨rfl, by decide, by decide⟩
    · exact ⟨rfl, by decide, by decide⟩
    · have h500 : chat_router_status (.genericException m) = 500 := rfl
      exact ⟨rfl, by rw [h500]; decide, by rw [h500]; decide⟩

/-- The session left behind by a first admission check for `alice` on
the empty store: the Free plan (id 1) and one active subscription
(id 2) for her, committed. -/
def provisionedSession : Session :=
  cleanSession
    { plans := [freePlanDefaults 1]
      subscriptions := [{ id := 2, user_id := 1, plan_id := 1,
                          start_date := 100000, end_date := none,
                          active := true, created_at := 100000 }]
      request_logs := []
      conversations := []
      messages := []
      next_id := 3 }

/-- A chat request naming a conversation id that does not exist. -/
def missingConvRequest : LLMRequest :=
  { message := "Hello", conversation_id := some 7 }

/-- Witness for C10 at concrete inputs: a daily-limit denial is an
untyped 429 `HTTPException`; the no-subscription case returns `False`;
a missing conversation surfaces as a `ValueError` which the router
maps to 404, never through the typed 429/402 handlers. -/
theorem c10_typed_exception_handlers_unreachable_witness :
    isTypedRateLimitError (.httpException 429 (dailyLimitDetail 1)) = false ∧
    (false = false ↔
      activeSubscriptionQuery (cleanSession emptyDB).pending alice.id 100000 =
        none) ∧
    (isTypedRateLimitError (.valueError "Conversation not found") = false ∧
      chat_router_status (.valueError "Conversation not found") ≠ 402 ∧
      chat_router_status (.valueError "Conversation not found") ≠ 429) :=
  ⟨(c10_typed_exception_handlers_unreachable okBackend (cleanSession c3DB)
      newChatRequest alice 100000).1 _ rfl,
   (c10_typed_exception_handlers_unreachable okBackend (cleanSession emptyDB)
      newChatRequest alice 100000).2.1 false provisionedSession rfl,
   (c10_typed_exception_handlers_unreachable okBackend
      (cleanSession subscribedDB) missingConvRequest alice 100000).2.2 _ rfl⟩

/-! ## Claim C9 -/

theorem scalarOneOrNone_ok_none {α : Type} {l : List α}
    (h : scalarOneOrNone l = .ok none) : l = [] := by
  unfold scalarOneOrNone at h
  split at h <;> simp_all

theorem scalarOneOrNone_ok_some {α : Type} {l : List α} {a : α}
    (h : scalarOneOrNone l = .ok (some a)) : l = [a] := by
  unfold scalarOneOrNone at h
  split at h <;> simp_all

/-- Step invariant of `_ensure_free_plan`: a successful run leaves
exactly one "Free" catalog row whenever at most one existed before,
and it commits (pending = committed). -/
theorem ensure_free_plan_free_count {s : Session} {u : User} {now : Nat}
    {s2 : Session} (h : ensure_free_plan s u now = .ok s2) :
    (s2.pending.plans.filter (fun p => p.name == "Free")).length = 1 ∧
    s2.committed = s2.pending := by
  unfold ensure_free_plan at h
  split at h
  next e2 hs => exact absurd h (by simp)
  next planOpt hs =>
    cases planOpt with
    | some p =>
      injection h with h2
      subst h2
      refine ⟨?_, rfl⟩
      simpa using congrArg List.length (scalarOneOrNone_ok_some hs)
    | none =>
      injection h with h2
      subst h2
      refine ⟨?_, rfl⟩
      have hemp := scalarOneOrNone_ok_none hs
      simp [Session.commit, List.filter_append, hemp, freePlanDefaults]

/-- n-fold repetition of the provisioning step (the claim quantifies
over "any number of times"). -/
def iterate_provisioning (u : User) (now : Nat) :
    Nat → Session → Except ServiceError Session
  | 0, s => .ok s
  | n + 1, s =>
    match ensure_free_plan s u now with
    | .error e => .error e
    | .ok s2 => iterate_provisioning u now n s2

theorem iterate_provisioning_free_invariant (u : User) (now : Nat) :
    ∀ (n : Nat) (s s2 : Session), iterate_provisioning u now n s = .ok s2 →
      (s.pending.plans.filter (fun p => p.name == "Free")).length ≤ 1 →
      (s2.pending.plans.filter (fun p => p.name == "Free")).length ≤ 1 := by
  intro n
  induction n with
  | zero =>
    intro s s2 h hle
    unfold iterate_provisioning at h
    injection h with h2
    exact h2 ▸ hle
  | succ n ih =>
    intro s s2 h hle
    unfold iterate_provisioning at h
    split at h
    next e2 hstep => exact absurd h (by simp)
    next s3 hstep =>
      exact ih s3 s2 h (le_of_eq (ensure_free_plan_free_count hstep).1)

/-- Claim C9: Free-plan provisioning is idempotent at the plan-catalog
level — running `_ensure_free_plan` any number of times starting from
a catalog with at most one "Free" row never yields two "Free" rows;
when no "Free" row exists it creates one with exactly the fixed
defaults 5/minute, 100/day, price 0; and each successful invocation
appends exactly one (additional, active, open-ended) UserSubscription
row for the user. -/
theorem c9_free_plan_provisioning_idempotent (s : Session) (u : User)
    (now : Nat) :
    (∀ s2, ensure_free_plan s u now = .ok s2 →
      (((s.pending.plans.filter (fun p => p.name == "Free")).length ≤ 1 →
          (s2.pending.plans.filter (fun p => p.name == "Free")).length = 1 ∧
          (s2.committed.plans.filter (fun p => p.name == "Free")).length = 1) ∧
        (s.pending.plans.filter (fun p => p.name == "Free") = [] →
          s2.pending.plans =
            s.pending.plans ++ [freePlanDefaults s.pending.next_id]) ∧
        ∃ sub : UserSubscription,
          s2.pending.subscriptions = s.pending.subscriptions ++ [sub] ∧
          sub.user_id = u.id ∧ sub.active = true ∧ sub.end_date = none)) ∧
    ((freePlanDefaults s.pending.next_id).name = "Free" ∧
      (freePlanDefaults s.pending.next_id).requests_per_minute = 5 ∧
      (freePlanDefaults s.pending.next_id).requests_per_day = 100 ∧
      (freePlanDefaults s.pending.next_id).price = 0) ∧
    (∀ n s2, iterate_provisioning u now n s = .ok s2 →
      (s.pending.plans.filter (fun p => p.name == "Free")).length ≤ 1 →
      (s2.pending.plans.filter (fun p => p.name == "Free")).length ≤ 1) := by
  refine ⟨fun s2 h => ?_, ⟨rfl, rfl, rfl, rfl⟩,
    fun n s2 h hle => iterate_provisioning_free_invariant u now n s s2 h hle⟩
  refine ⟨fun hle => ?_, fun hemp => ?_, ?_⟩
  · obtain ⟨h1, h2⟩ := ensure_free_plan_free_count h
    exact ⟨h1, by rw [h2]; exact h1⟩
  · unfold ensure_free_plan at h
    split at h
    next e2 hs => exact absurd h (by simp)
    next planOpt hs =>
      cases planOpt with
      | some p =>
        have := scalarOneOrNone_ok_some hs
        simp_all
      | none =>
        injection h with h2
        subst h2
        rfl
  · unfold ensure_free_plan at h
    split at h
    next e2 hs => exact absurd h (by simp)
    next planOpt hs =>
      cases planOpt with
      | some p =>
        injection h with h2
        subst h2
        exact ⟨_, rfl, rfl, rfl, rfl⟩
      | none =>
        injection h with h2
        subst h2
        exact ⟨_, rfl, rfl, rfl, rfl⟩

/-- Witness for C9: provisioning on the empty store creates one "Free"
plan row and one active subscription for `alice`, and ten iterated
provisioning runs still leave at most one "Free" row. -/
theorem c9_free_plan_provisioning_idempotent_witness :
    ensure_free_plan (cleanSession emptyDB) alice 100000 =
      .ok provisionedSession ∧
    (provisionedSession.pending.plans.filter
        (fun p => p.name == "Free")).length = 1 ∧
    (∀ s2, iterate_provisioning alice 100000 10 (cleanSession emptyDB) =
        .ok s2 →
      (s2.pending.plans.filter (fun p => p.name == "Free")).length ≤ 1) :=
  ⟨rfl,
   ((c9_free_plan_provisioning_idempotent (cleanSession emptyDB) alice
       100000).1 provisionedSession rfl).1 (by decide) |>.1,
   fun s2 h =>
     (c9_free_plan_provisioning_idempotent (cleanSession emptyDB) alice
       100000).2.2 10 s2 h (by decide)⟩

/-! ## Claim C1 -/

/-- Claim C1 (code bug, demonstrated): for a user with no subscription
the admission check returns `False` (a denial) and persists exactly
one active Free subscription, and a second check succeeds — but
`process_chat_request` (src/services/chat_service.py line 49) discards
the returned boolean, so the very same request is still fully
processed: a conversation is created, the user and assistant messages
are committed, the generation backend is invoked (its response is
returned) and a RequestLog row is recorded, contradicting the claim
that the denied request is not processed. -/
theorem c1_denied_request_is_still_processed :
    check_rate_limit (cleanSession emptyDB) alice 100000 =
      .ok (false, provisionedSession) ∧
    (provisionedSession.committed.subscriptions.filter
        (fun sub => sub.user_id == alice.id && sub.active)).length = 1 ∧
    (provisionedSession.committed.plans.filter
        (fun p => p.name == "Free")).length = 1 ∧
    check_rate_limit provisionedSession alice 100000 =
      .ok (true, provisionedSession) ∧
    (process_chat_request okBackend (cleanSession emptyDB) newChatRequest
        alice 100000).1 =
      .ok { response := "Hi there", conversation_id := 3, message_id := 5 } ∧
    ((process_chat_request okBackend (cleanSession emptyDB) newChatRequest
        alice 100000).2).committed.messages.length = 2 ∧
    ((process_chat_request okBackend (cleanSession emptyDB) newChatRequest
        alice 100000).2).committed.request_logs.length = 1 :=
  ⟨rfl, rfl, rfl, rfl, rfl, rfl, rfl⟩

/-! ## Claim C2 -/

theorem ensure_free_plan_ok_preserves {s : Session} {u : User} {now : Nat}
    {s2 : Session} (h : ensure_free_plan s u now = .ok s2) :
    s2.committed.messages = s.pending.messages ∧
    s2.committed.request_logs = s.pending.request_logs ∧
    s2.pending = s2.committed := by
  unfold ensure_free_plan at h
  split at h
  next e2 hs => exact absurd h (by simp)
  next planOpt hs =>
    cases planOpt with
    | some p =>
      injection h with h2
      subst h2
      exact ⟨rfl, rfl, rfl⟩
    | none =>
      injection h with h2
      subst h2
      exact ⟨rfl, rfl, rfl⟩

theorem check_rate_limit_ok_preserves {s : Session} {u : User} {now : Nat}
    {b : Bool} {s1 : Session} (hclean : s.pending = s.committed)
    (h : check_rate_limit s u now = .ok (b, s1)) :
    s1.committed.messages = s.committed.messages ∧
    s1.committed.request_logs = s.committed.request_logs ∧
    s1.pending.messages = s.committed.messages ∧
    s1.pending.request_logs = s.committed.request_logs := by
  unfold check_rate_limit at h
  split at h
  next hq =>
    split at h
    next e2 hens => exact absurd h (by simp)
    next s2 hens =>
      injection h with h2
      injection h2 with h3 h4
      subst h4
      obtain ⟨hm, hr, hpc⟩ := ensure_free_plan_ok_preserves hens
      rw [hclean] at hm hr
      exact ⟨hm, hr, by rw [hpc]; exact hm, by rw [hpc]; exact hr⟩
  next sub plan hq =>
    split at h
    · exact absurd h (by simp)
    · split at h
      · exact absurd h (by simp)
      · injection h with h2
        injection h2 with h3 h4
        subst h4
        exact ⟨rfl, rfl, hclean ▸ rfl, hclean ▸ rfl⟩

theorem get_or_create_conversation_ok_preserves {env : LLMBackend}
    {s1 : Session} {req : LLMRequest} {u : User} {now : Nat}
    {conv : Conversation} {loaded : List Message} {s2 : Session}
    (h : get_or_create_conversation env s1 req u now =
      .ok (conv, loaded, s2)) :
    s2.committed = s1.committed ∧
    s2.pending.messages = s1.pending.messages ∧
    s2.pending.request_logs = s1.pending.request_logs := by
  unfold get_or_create_conversation at h
  split at h
  · split at h
    next e2 hs => exact absurd h (by simp)
    next hs => exact absurd h (by simp)
    next c hs =>
      injection h with h2
      injection h2 with h3 h4
      injection h4 with h5 h6
      subst h6
      exact ⟨rfl, rfl, rfl⟩
  · injection h with h2
    injection h2 with h3 h4
    injection h4 with h5 h6
    subst h6
    exact ⟨rfl, rfl, rfl⟩

/-- Claim C2: for every chat request whose generation backend call
fails — non-streaming, or streaming mid-stream after some fragments —
all writes of the request are rolled back: the final session is rolled
back to its committed state, which holds no new Message rows (the
just-appended user message included) and no new RequestLog row, so the
failed request consumes no quota; in the streaming case the emitted
event sequence is metadata, the chunks received so far, then one error
event. -/
theorem c2_generation_failure_rolls_back_everything (env : LLMBackend)
    (s : Session) (req : LLMRequest) (u : User) (now : Nat) (b : Bool)
    (s1 : Session) (conv : Conversation) (loaded : List Message)
    (s2 : Session) (hclean : s.pending = s.committed)
    (hc : check_rate_limit s u now = .ok (b, s1))
    (hg : get_or_create_conversation env s1 req u now =
      .ok (conv, loaded, s2)) :
    (∀ em, env.gen (add_system_message_to_formatted_messages
        (format_conversation_for_llm (get_conversation_messages loaded
          (add_user_message s2 req.message conv now).1))) = .error em →
      (process_chat_request env s req u now).1 =
        .error (.genericException ("Error generating response: " ++ em)) ∧
      ((process_chat_request env s req u now).2).pending =
        ((process_chat_request env s req u now).2).committed ∧
      ((process_chat_request env s req u now).2).committed.messages =
        s.committed.messages ∧
      ((process_chat_request env s req u now).2).committed.request_logs =
        s.committed.request_logs) ∧
    (∀ chunks em, env.genStream (add_system_message_to_formatted_messages
        (format_conversation_for_llm (get_conversation_messages loaded
          (add_user_message s2 req.message conv now).1))) =
        (chunks, some em) →
      (process_chat_request_stream env s req u now).events =
        .metadata conv.id (add_user_message s2 req.message conv now).1.id ::
          (chunks.map .chunk ++ [.error em]) ∧
      (process_chat_request_stream env s req u now).raised = none ∧
      ((process_chat_request_stream env s req u now).final).pending =
        ((process_chat_request_stream env s req u now).final).committed ∧
      ((process_chat_request_stream env s req u now).final).committed.messages =
        s.committed.messages ∧
      ((process_chat_request_stream env s req u now).final).committed.request_logs =
        s.committed.request_logs) := by
  obtain ⟨hcm, hcr, hpm, hpr⟩ := check_rate_limit_ok_preserves hclean hc
  obtain ⟨hgc, hgm, hgr⟩ := get_or_create_conversation_ok_preserves hg
  constructor
  · intro em hf
    have hred : process_chat_request env s req u now =
        (.error (.genericException ("Error generating response: " ++ em)),
         ((add_user_message s2 req.message conv now).2).rollback) := by
      unfold process_chat_request
      simp only [hc, hg]
      simp only [hf]
    rw [hred]
    refine ⟨rfl, rfl, ?_, ?_⟩
    · show s2.committed.messages = s.committed.messages
      rw [hgc]; exact hcm
    · show s2.committed.request_logs = s.committed.request_logs
      rw [hgc]; exact hcr
  · intro chunks em hf
    have hred : process_chat_request_stream env s req u now =
        ⟨.metadata conv.id (add_user_message s2 req.message conv now).1.id ::
           (chunks.map .chunk ++ [.error em]), none,
         ((add_user_message s2 req.message conv now).2).rollback⟩ := by
      unfold process_chat_request_stream
      simp only [hc, hg]
      simp only [hf]
      rfl
    rw [hred]
    refine ⟨rfl, rfl, rfl, ?_, ?_⟩
    · show s2.committed.messages = s.committed.messages
      rw [hgc]; exact hcm
    · show s2.committed.request_logs = s.committed.request_logs
      rw [hgc]; exact hcr

/-- Witness for C2: `alice`, subscribed, sends "Hello" against a
backend that yields "Hel" and then raises — the stream emits metadata,
chunk("Hel"), error, nothing is persisted; the non-streaming path
raises the wrapped generic error and persists nothing. -/
theorem c2_generation_failure_rolls_back_everything_witness :
    (process_chat_request failingBackend (cleanSession subscribedDB)
        newChatRequest alice 100000).1 =
      .error (.genericException
        ("Error generating response: " ++ "LLM API error: boom")) ∧
    ((process_chat_request failingBackend (cleanSession subscribedDB)
        newChatRequest alice 100000).2).committed.messages =
      subscribedDB.messages ∧
    (process_chat_request_stream failingBackend (cleanSession subscribedDB)
        newChatRequest alice 100000).events =
      .metadata 3 4 ::
        (["Hel"].map StreamEvent.chunk ++ [.error "LLM API error: boom"]) ∧
    ((process_chat_request_stream failingBackend (cleanSession subscribedDB)
        newChatRequest alice 100000).final).committed.request_logs =
      subscribedDB.request_logs := by
  have h := c2_generation_failure_rolls_back_everything failingBackend
    (cleanSession subscribedDB) newChatRequest alice 100000 true
    (cleanSession subscribedDB)
    { id := 3, user_id := 1, title := "Test Title", created_at := 100000 }
    []
    ⟨subscribedDB,
     { subscribedDB with
         conversations := [{ id := 3, user_id := 1, title := "Test Title",
                             created_at := 100000 }]
         next_id := 4 }⟩
    rfl rfl rfl
  exact ⟨(h.1 "LLM API error: boom" rfl).1,
         (h.1 "LLM API error: boom" rfl).2.2.1,
         (h.2 ["Hel"] "LLM API error: boom" rfl).1,
         (h.2 ["Hel"] "LLM API error: boom" rfl).2.2.2.2⟩

/-! ## Claim C4 -/

/-- Claim C4: for every streaming chat request whose generation
backend yields a finite sequence of fragments and completes, the
emitted events are exactly one metadata event (conversation id and new
user-message id), one chunk event per fragment in order, then one
complete event carrying the assistant-message id; the run raises
nothing, the final session is committed, and the persisted assistant
message rows equal the prior rows plus the user message plus an
assistant message whose content is the concatenation of all yielded
fragments in order. -/
theorem c4_streaming_success_event_sequence (env : LLMBackend)
    (s : Session) (req : LLMRequest) (u : User) (now : Nat) (b : Bool)
    (s1 : Session) (conv : Conversation) (loaded : List Message)
    (s2 : Session) (chunks : List String)
    (hc : check_rate_limit s u now = .ok (b, s1))
    (hg : get_or_create_conversation env s1 req u now =
      .ok (conv, loaded, s2))
    (hf : env.genStream (add_system_message_to_formatted_messages
        (format_conversation_for_llm (get_conversation_messages loaded
          (add_user_message s2 req.message conv now).1))) =
      (chunks, none)) :
    (process_chat_request_stream env s req u now).events =
      .metadata conv.id (add_user_message s2 req.message conv now).1.id ::
        (chunks.map .chunk ++
          [.complete ((add_assistant_message
              (add_user_message s2 req.message conv now).2
              (chunks.foldl (fun acc c => acc ++ c) "") conv now).1).id]) ∧
    (process_chat_request_stream env s req u now).raised = none ∧
    ((process_chat_request_stream env s req u now).final).pending =
      ((process_chat_request_stream env s req u now).final).committed ∧
    ((process_chat_request_stream env s req u now).final).committed.messages =
      (s2.pending.messages ++ [(add_user_message s2 req.message conv now).1])
        ++ [(add_assistant_message
              (add_user_message s2 req.message conv now).2
              (chunks.foldl (fun acc c => acc ++ c) "") conv now).1] ∧
    ((add_assistant_message (add_user_message s2 req.message conv now).2
        (chunks.foldl (fun acc c => acc ++ c) "") conv now).1).content =
      String.join chunks ∧
    ((add_assistant_message (add_user_message s2 req.message conv now).2
        (chunks.foldl (fun acc c => acc ++ c) "") conv now).1).sender_type =
      .assistant ∧
    ((add_assistant_message (add_user_message s2 req.message conv now).2
        (chunks.foldl (fun acc c => acc ++ c) "") conv now).1).conversation_id =
      conv.id := by
  have hred : process_chat_request_stream env s req u now =
      ⟨.metadata conv.id (add_user_message s2 req.message conv now).1.id ::
         (chunks.map .chunk ++
           [.complete ((add_assistant_message
               (add_user_message s2 req.message conv now).2
               (chunks.foldl (fun acc c => acc ++ c) "") conv now).1).id]),
       none,
       (log_request (add_assistant_message
           (add_user_message s2 req.message conv now).2
           (chunks.foldl (fun acc c => acc ++ c) "") conv now).2 u
         now).commit⟩ := by
    unfold process_chat_request_stream
    simp only [hc, hg]
    simp only [hf]
    rfl
  rw [hred]
  exact ⟨rfl, rfl, rfl, rfl, rfl, rfl, rfl⟩

/-- Witness for C4: the spec scenario — fragments "Hel", "lo" emit
metadata, chunk("Hel"), chunk("lo"), complete, and the persisted
assistant content is "Hello". -/
theorem c4_streaming_success_event_sequence_witness :
    (process_chat_request_stream okBackend (cleanSession subscribedDB)
        newChatRequest alice 100000).events =
      [.metadata 3 4, .chunk "Hel", .chunk "lo", .complete 5] ∧
    ((process_chat_request_stream okBackend (cleanSession subscribedDB)
        newChatRequest alice 100000).final).committed.messages.map
      (fun m => (m.sender_type, m.content)) =
      [(.user, "Hello"), (.assistant, "Hello".take 0 ++ "Hello")] ∧
    String.join ["Hel", "lo"] = "Hello" := by
  have h := c4_streaming_success_event_sequence okBackend
    (cleanSession subscribedDB) newChatRequest alice 100000 true
    (cleanSession subscribedDB)
    { id := 3, user_id := 1, title := "Test Title", created_at := 100000 }
    []
    ⟨subscribedDB,
     { subscribedDB with
         conversations := [{ id := 3, user_id := 1, title := "Test Title",
                             created_at := 100000 }]
         next_id := 4 }⟩
    ["Hel", "lo"] rfl rfl rfl
  exact ⟨h.1, by rw [h.2.2.2.1]; rfl, rfl⟩

/-! ## Claim C5 -/

/-- Terminal events of the streaming protocol: completion or error. -/
def isTerminalEvent : StreamEvent → Bool
  | .complete _ => true
  | .error _ => true
  | _ => false

theorem countP_chunk_map_zero (chunks : List String) :
    (chunks.map StreamEvent.chunk).countP (fun e => isTerminalEvent e) = 0 := by
  induction chunks with
  | nil => rfl
  | cons c cs ih => simp [List.countP_cons, isTerminalEvent, ih]

/-- Counterexample to claim C5: a streaming run denied by the rate
limiter (daily limit already reached) raises the 429 out of the async
generator before any event is emitted — the stream carries zero
terminal events, not exactly one. -/
theorem c5_counterexample_denied_run_has_no_terminal_event :
    (process_chat_request_stream okBackend (cleanSession c3DB)
        newChatRequest alice 100000).events.countP
      (fun e => isTerminalEvent e) = 0 ∧
    (process_chat_request_stream okBackend (cleanSession c3DB)
        newChatRequest alice 100000).raised =
      some (.httpException 429 (dailyLimitDetail 1)) :=
  ⟨rfl, rfl⟩

/-- Claim C5 as amended: a streaming run that raises no exception out
of the generator (in particular every run that reaches the generation
phase, failing or not) emits exactly one terminal event, and it is the
last event; a run that raises — denied by the rate limiter, failed
conversation lookup — emits no event at all (and hence no terminal
event). -/
theorem c5_amended_one_terminal_event_unless_raised (env : LLMBackend)
    (s : Session) (req : LLMRequest) (u : User) (now : Nat) :
    ((process_chat_request_stream env s req u now).raised = none →
      (process_chat_request_stream env s req u now).events.countP
        (fun e => isTerminalEvent e) = 1 ∧
      ((process_chat_request_stream env s req u now).events.getLast?.map
        (fun e => isTerminalEvent e)) = some true) ∧
    (∀ e, (process_chat_request_stream env s req u now).raised = some e →
      (process_chat_request_stream env s req u now).events = []) := by
  generalize hrun : process_chat_request_stream env s req u now = run
  unfold process_chat_request_stream at hrun
  split at hrun
  next e2 hc =>
    rw [← hrun]
    exact ⟨fun hnone => by simp at hnone, fun e he => rfl⟩
  next b s1 hc =>
    split at hrun
    next e2 hg =>
      rw [← hrun]
      exact ⟨fun hnone => by simp at hnone, fun e he => rfl⟩
    next conv loaded s2 hg =>
      dsimp only at hrun
      split at hrun
      next em hstr =>
        rw [← hrun]
        constructor
        · intro hnone
          constructor
          · simp [List.countP_cons, List.countP_append,
              countP_chunk_map_zero, isTerminalEvent]
          · dsimp only
            rw [List.getLast?_concat]
            rfl
        · intro e he
          simp at he
      next hstr =>
        rw [← hrun]
        constructor
        · intro hnone
          constructor
          · simp [List.countP_cons, List.countP_append,
              countP_chunk_map_zero, isTerminalEvent]
          · dsimp only
            rw [List.getLast?_concat]
            rfl
        · intro e he
          simp at he

/-- Witness for C5 (amended), at two concrete runs: a successful run
emits exactly one terminal event (its last), and a daily-limit-denied
run emits no events. -/
theorem c5_amended_one_terminal_event_unless_raised_witness :
    ((process_chat_request_stream okBackend (cleanSession subscribedDB)
        newChatRequest alice 100000).events.countP
      (fun e => isTerminalEvent e) = 1 ∧
      ((process_chat_request_stream okBackend (cleanSession subscribedDB)
          newChatRequest alice 100000).events.getLast?.map
        (fun e => isTerminalEvent e)) = some true) ∧
    (process_chat_request_stream okBackend (cleanSession c3DB)
        newChatRequest alice 100000).events = [] :=
  ⟨(c5_amended_one_terminal_event_unless_raised okBackend
      (cleanSession subscribedDB) newChatRequest alice 100000).1 rfl,
   (c5_amended_one_terminal_event_unless_raised okBackend
      (cleanSession c3DB) newChatRequest alice 100000).2
     (.httpException 429 (dailyLimitDetail 1)) rfl⟩

/-! ## Claim C6 -/

/-- The sender-kind → role mapping of the claim (net effect of the
two-step assignment in `format_conversation_for_llm`). -/
def roleOf : SenderType → String
  | .user => "user"
  | .assistant => "assistant"
  | .system => "system"

/-- A store in which `alice` is subscribed and owns conversation 5
whose persisted history is a user message followed by a system
message (the data model's check constraint explicitly allows persisted
system-kind messages). -/
def c6DB : DB :=
  { plans := [freePlanDefaults 1]
    subscriptions := [{ id := 2, user_id := 1, plan_id := 1,
                        start_date := 0, end_date := none,
                        active := true, created_at := 0 }]
    request_logs := []
    conversations := [{ id := 5, user_id := 1, title := "T",
                        created_at := 0 }]
    messages := [{ id := 10, conversation_id := 5, sender_type := .user,
                   content := "hi", created_at := 1 },
                 { id := 11, conversation_id := 5, sender_type := .system,
                   content := "injected directive", created_at := 2 }]
    next_id := 12 }

/-- A request continuing conversation 5. -/
def c6Request : LLMRequest :=
  { message := "Hello", conversation_id := some 5 }

/-- A backend that reports back, as its generated response, how many
system-role entries the message list it received contains. -/
def probeBackend : LLMBackend :=
  { genTitle := fun _ => "Test Title"
    gen := fun msgs =>
      .ok (toString (msgs.countP (fun fm => fm.role == "system")))
    genStream := fun msgs =>
      ([toString (msgs.countP (fun fm => fm.role == "system"))], none) }

/-- Counterexample to claim C6: for a conversation whose stored
history holds a system-kind message after the first position, the
message list sent to the generation backend contains two system-role
entries, refuting "exactly one system directive is ever sent" — the
fixed instruction is prepended (the head has role user) and the later
persisted system message is preserved. -/
theorem c6_counterexample_two_system_directives :
    (process_chat_request probeBackend (cleanSession c6DB) c6Request alice
        100000).1 =
      .ok { response := "2", conversation_id := 5, message_id := 13 } ∧
    (add_system_message_to_formatted_messages (format_conversation_for_llm
        (get_conversation_messages c6DB.messages
          { id := 12, conversation_id := 5, sender_type := .user,
            content := "Hello", created_at := 100000 }))).countP
      (fun fm => fm.role == "system") = 2 :=
  ⟨rfl, rfl⟩

theorem format_conversation_map_roleOf (l : List Message) :
    format_conversation_for_llm l =
      l.map (fun m =>
        ({ role := roleOf m.sender_type, content := m.content } :
          FormattedMessage)) := by
  induction l with
  | nil => rfl
  | cons m ms ih =>
    simp only [format_conversation_for_llm, List.map_cons] at ih ⊢
    refine congrArg₂ _ ?_ ih
    rcases m with ⟨i, c, st, ct, ca⟩
    cases st <;> rfl

theorem countP_roleOf_map_system_zero (l : List Message)
    (h : l.all (fun m => !(m.sender_type == SenderType.system)) = true) :
    (l.map (fun m =>
      ({ role := roleOf m.sender_type, content := m.content } :
        FormattedMessage))).countP (fun fm => fm.role == "system") = 0 := by
  induction l with
  | nil => rfl
  | cons m ms ih =>
    simp only [List.all_cons, Bool.and_eq_true] at h
    simp only [List.map_cons, List.countP_cons]
    rw [ih h.2]
    have hz : (roleOf m.sender_type == "system") = false := by
      rcases m with ⟨i, c, st, ct, ca⟩
      cases st
      · rfl
      · rfl
      · exact absurd h.1 (by simp)
    simp [hz]

/-- Claim C6 as amended: the message list sent to the generation
backend is the stored history (in store order, which realises
creation-ascending order) plus the just-appended user message, each
mapped sender-kind → role (user→user, assistant→assistant,
system→system), with the fixed system instruction always in first
position — replacing the first entry when that entry already has role
system, prepended otherwise; and the list contains exactly one
system-role entry whenever the history holds no persisted system-kind
message (system-kind messages after the first position are preserved,
so uniqueness holds only under that condition). -/
theorem c6_amended_context_assembly (loaded : List Message) (um : Message) :
    format_conversation_for_llm (get_conversation_messages loaded um) =
      (loaded ++ [um]).map (fun m =>
        ({ role := roleOf m.sender_type, content := m.content } :
          FormattedMessage)) ∧
    (add_system_message_to_formatted_messages (format_conversation_for_llm
        (get_conversation_messages loaded um))).head? =
      some { role := "system", content := system_message_text } ∧
    (∀ x xs, format_conversation_for_llm (get_conversation_messages loaded um) =
        x :: xs → x.role = "system" →
      add_system_message_to_formatted_messages (format_conversation_for_llm
        (get_conversation_messages loaded um)) =
        { role := "system", content := system_message_text } :: xs) ∧
    (∀ x xs, format_conversation_for_llm (get_conversation_messages loaded um) =
        x :: xs → x.role ≠ "system" →
      add_system_message_to_formatted_messages (format_conversation_for_llm
        (get_conversation_messages loaded um)) =
        { role := "system", content := system_message_text } :: x :: xs) ∧
    ((loaded ++ [um]).all
        (fun m => !(m.sender_type == SenderType.system)) = true →
      (add_system_message_to_formatted_messages (format_conversation_for_llm
          (get_conversation_messages loaded um))).countP
        (fun fm => fm.role == "system") = 1) := by
  refine ⟨format_conversation_map_roleOf _, ?_, ?_, ?_, ?_⟩
  · cases hl : format_conversation_for_llm (get_conversation_messages loaded um) with
    | nil => rfl
    | cons x xs =>
      simp only [add_system_message_to_formatted_messages]
      split <;> rfl
  · intro x xs hl hx
    rw [hl]
    simp only [add_system_message_to_formatted_messages]
    rw [if_pos (by simp [hx])]
  · intro x xs hl hx
    rw [hl]
    simp only [add_system_message_to_formatted_messages]
    rw [if_neg (by simp [hx])]
  · intro hall
    rw [show get_conversation_messages loaded um = loaded ++ [um] from rfl]
    have hmap := format_conversation_map_roleOf (loaded ++ [um])
    have hzero := countP_roleOf_map_system_zero (loaded ++ [um]) hall
    cases hl : (loaded ++ [um]).map (fun m =>
        ({ role := roleOf m.sender_type, content := m.content } :
          FormattedMessage)) with
    | nil => simp at hl
    | cons x xs =>
      rw [hl] at hmap hzero
      have hx : (x.role == "system") = false := by
        simp only [List.countP_cons] at hzero
        rcases hb : (x.role == "system") with _ | _
        · rfl
        · rw [hb] at hzero; simp at hzero
      rw [hmap]
      simp only [add_system_message_to_formatted_messages]
      rw [if_neg (by simp [hx])]
      simp [List.countP_cons, hzero, hx]

/-- Witness for C6 (amended): a one-user-message history plus the new
user message maps to user roles, gets the fixed instruction prepended,
and carries exactly one system-role entry. -/
theorem c6_amended_context_assembly_witness :
    (format_conversation_for_llm (get_conversation_messages
        [{ id := 10, conversation_id := 5, sender_type := .user,
           content := "hi", created_at := 1 }]
        { id := 12, conversation_id := 5, sender_type := .user,
          content := "Hello", created_at := 100000 }) =
      [{ role := "user", content := "hi" },
       { role := "user", content := "Hello" }]) ∧
    (add_system_message_to_formatted_messages (format_conversation_for_llm
        (get_conversation_messages
          [{ id := 10, conversation_id := 5, sender_type := .user,
             content := "hi", created_at := 1 }]
          { id := 12, conversation_id := 5, sender_type := .user,
            content := "Hello", created_at := 100000 })) =
      { role := "system", content := system_message_text } ::
        { role := "user", content := "hi" } ::
          [{ role := "user", content := "Hello" }]) ∧
    (add_system_message_to_formatted_messages (format_conversation_for_llm
        (get_conversation_messages
          [{ id := 10, conversation_id := 5, sender_type := .user,
             content := "hi", created_at := 1 }]
          { id := 12, conversation_id := 5, sender_type := .user,
            content := "Hello", created_at := 100000 }))).countP
      (fun fm => fm.role == "system") = 1 :=
  ⟨(c6_amended_context_assembly
      [{ id := 10, conversation_id := 5, sender_type := .user,
         content := "hi", created_at := 1 }]
      { id := 12, conversation_id := 5, sender_type := .user,
        content := "Hello", created_at := 100000 }).1,
   (c6_amended_context_assembly
      [{ id := 10, conversation_id := 5, sender_type := .user,
         content := "hi", created_at := 1 }]
      { id := 12, conversation_id := 5, sender_type := .user,
        content := "Hello", created_at := 100000 }).2.2.2.1
     { role := "user", content := "hi" }
     [{ role := "user", content := "Hello" }] rfl (by decide),
   (c6_amended_context_assembly
      [{ id := 10, conversation_id := 5, sender_type := .user,
         content := "hi", created_at := 1 }]
      { id := 12, conversation_id := 5, sender_type := .user,
        content := "Hello", created_at := 100000 }).2.2.2.2 (by decide)⟩

/-! ## Claim C7 -/

/-- Counterexample to claim C7: no user is ever unconditionally
granted admission without subscription resolution.  The `users` table
has no administrative bypass flag at all, so no user is
distinguishable as an administrator; for any user — here `alice`, with
every boolean attribute the model does have set — the check runs
subscription resolution (observable: with no subscription it persists
a Free subscription as a side effect and returns the denial `False`),
and it denies with 429 once the daily quota is reached. -/
theorem c7_counterexample_no_unconditional_grant :
    check_rate_limit (cleanSession emptyDB) alice 100000 =
      .ok (false, provisionedSession) ∧
    provisionedSession.pending.subscriptions.length = 1 ∧
    check_rate_limit (cleanSession c3DB) alice 100000 =
      .error (.httpException 429 (dailyLimitDetail 1)) :=
  ⟨rfl, rfl, rfl⟩

/-- Claim C7 as amended: there is no administrative bypass — the User
model carries no admin flag, and the admission check's outcome depends
only on the user's id (hence only on their subscription and
request-log rows): two users with the same id but arbitrarily
different attributes receive identical admission outcomes, and every
user is subject to subscription resolution and the daily/minute
limits. -/
theorem c7_amended_no_admin_bypass (s : Session) (now : Nat)
    (u1 u2 : User) (hid : u1.id = u2.id) :
    check_rate_limit s u1 now = check_rate_limit s u2 now := by
  unfold check_rate_limit ensure_free_plan
  rw [hid]

/-- A user sharing `alice`'s id with every other attribute different
(the closest thing the model admits to a privileged variant). -/
def aliceVariant : User :=
  { id := 1, email := "root@example.com", username := "root",
    email_verified := false }

/-- Witness for C7 (amended): `alice` and her attribute-variant twin
receive the same admission outcome. -/
theorem c7_amended_no_admin_bypass_witness :
    alice.id = aliceVariant.id ∧
    check_rate_limit (cleanSession c3DB) alice 100000 =
      check_rate_limit (cleanSession c3DB) aliceVariant 100000 :=
  ⟨rfl, c7_amended_no_admin_bypass (cleanSession c3DB) 100000 alice
    aliceVariant rfl⟩

/-! ## Claim C8 -/

/-- A chat request supplying the conversation id 0 (a valid
`Optional[int]` payload; Python truthiness treats it as absent). -/
def zeroConvRequest : LLMRequest :=
  { message := "Hello", conversation_id := some 0 }

/-- Counterexample to claim C8: the supplied conversation_id 0 names
no existing conversation (ids are autoincrement from 1 and the store
holds none), so per the claim the request must fail with not-found;
instead `if request.conversation_id:` is falsy at 0, a brand-new
conversation (id 3) is created and the request succeeds. -/
theorem c8_counterexample_zero_conversation_id :
    subscribedDB.conversations = [] ∧
    (process_chat_request okBackend (cleanSession subscribedDB)
        zeroConvRequest alice 100000).1 =
      .ok { response := "Hi there", conversation_id := 3, message_id := 5 } ∧
    ((process_chat_request okBackend (cleanSession subscribedDB)
        zeroConvRequest alice 100000).2).committed.conversations.length = 1 :=
  ⟨rfl, rfl, rfl⟩

theorem get_or_create_conversation_not_found {env : LLMBackend}
    {s : Session} {req : LLMRequest} {u : User} {now : Nat} {cid : Nat}
    (hcid : req.conversation_id = some cid) (hnz : cid ≠ 0)
    (hemp : s.pending.conversations.filter (fun c =>
      c.id == cid && c.user_id == u.id) = []) :
    get_or_create_conversation env s req u now =
      .error (.valueError "Conversation not found") := by
  unfold get_or_create_conversation
  rw [hcid]
  rw [if_pos (by simp [truthyConversationId, hnz])]
  simp only [Option.getD_some]
  rw [hemp]
  rfl

/-- Claim C8 as amended: for every chat request supplying a nonzero
conversation_id, the conversation is fetched scoped to the requesting
user — when no conversation with that id owned by that user exists
(absent, or owned by another user) the lookup raises
`ValueError("Conversation not found")`, which the whole request
propagates and the router maps to 404; on success the returned
conversation has exactly that id and is owned by the requesting user,
for every user without exception (there is no admin bypass).  A
supplied conversation_id of 0 is treated as absent by the falsy check
and creates a new conversation instead. -/
theorem c8_amended_ownership_scoped_lookup (env : LLMBackend)
    (s : Session) (req : LLMRequest) (u : User) (now : Nat) (cid : Nat)
    (hcid : req.conversation_id = some cid) (hnz : cid ≠ 0) :
    (s.pending.conversations.filter (fun c =>
        c.id == cid && c.user_id == u.id) = [] →
      get_or_create_conversation env s req u now =
        .error (.valueError "Conversation not found")) ∧
    (∀ conv loaded s2, get_or_create_conversation env s req u now =
        .ok (conv, loaded, s2) →
      conv.id = cid ∧ conv.user_id = u.id ∧ s2 = s ∧
      loaded = s.pending.messages.filter (fun m =>
        m.conversation_id == conv.id)) ∧
    (∀ b s1, check_rate_limit s u now = .ok (b, s1) →
      s1.pending.conversations.filter (fun c =>
        c.id == cid && c.user_id == u.id) = [] →
      (process_chat_request env s req u now).1 =
        .error (.valueError "Conversation not found")) ∧
    chat_router_status (.valueError "Conversation not found") = 404 := by
  refine ⟨fun hemp => get_or_create_conversation_not_found hcid hnz hemp,
    fun conv loaded s2 h => ?_, fun b s1 hc hemp => ?_, by decide⟩
  · unfold get_or_create_conversation at h
    rw [hcid, if_pos (by simp [truthyConversationId, hnz])] at h
    simp only [Option.getD_some] at h
    split at h
    next e2 hs => exact absurd h (by simp)
    next hs => exact absurd h (by simp)
    next c hs =>
      injection h with h2
      injection h2 with h3 h4
      injection h4 with h5 h6
      subst h3 h5 h6
      have hmem : c ∈ s.pending.conversations.filter (fun c =>
          c.id == cid && c.user_id == u.id) := by
        rw [scalarOneOrNone_ok_some hs]
        exact List.mem_singleton.mpr rfl
      have hpred := (List.mem_filter.mp hmem).2
      simp only [Bool.and_eq_true, beq_iff_eq] at hpred
      exact ⟨hpred.1, hpred.2, rfl, rfl⟩
  · have herr : get_or_create_conversation env s1 req u now =
        .error (.valueError "Conversation not found") :=
      get_or_create_conversation_not_found hcid hnz hemp
    unfold process_chat_request
    simp only [hc, herr]

/-- Witness for C8 (amended): `alice` requests the nonexistent
conversation 7 — the lookup and the whole request fail with the
not-found `ValueError`, mapped to 404. -/
theorem c8_amended_ownership_scoped_lookup_witness :
    (get_or_create_conversation okBackend (cleanSession subscribedDB)
        missingConvRequest alice 100000 =
      .error (.valueError "Conversation not found")) ∧
    (process_chat_request okBackend (cleanSession subscribedDB)
        missingConvRequest alice 100000).1 =
      .error (.valueError "Conversation not found") ∧
    chat_router_status (.valueError "Conversation not found") = 404 :=
  ⟨(c8_amended_ownership_scoped_lookup okBackend (cleanSession subscribedDB)
      missingConvRequest alice 100000 7 rfl (by decide)).1 rfl,
   (c8_amended_ownership_scoped_lookup okBackend (cleanSession subscribedDB)
      missingConvRequest alice 100000 7 rfl (by decide)).2.2.1 true
     (cleanSession subscribedDB) rfl rfl,
   (c8_amended_ownership_scoped_lookup okBackend (cleanSession subscribedDB)
      missingConvRequest alice 100000 7 rfl (by decide)).2.2.2⟩

end App
